import Mathlib

/-!
Shallow embedding of the arduinolib2 HTTP routing core: the request queue
(`HttpRequestQueue.h`), the request dispatcher and its string-to-type
conversion (`HttpRequestDispatcher.h`), the request processor
(`HttpRequestProcessor.h`), the endpoint trie (`EndpointTrie.h`, modelled
from the spec since the header is not part of the source tree), and
`NayanMath::sub` (`NayanMath2.h`).  C++ strings are modelled as Lean
`String`, pointers (`IHttpRequestPtr`) as `Option`, C++ exceptions thrown
as `std::exception` as `Except String`, and the per-method
`unordered_map`s as association lists.
-/

/-- The nine HTTP verbs of the `HttpMethod` enum used by the dispatcher. -/
inductive HttpMethod where
  | GET | POST | PUT | PATCH | DELETE | OPTIONS | HEAD | TRACE | CONNECT
  deriving DecidableEq, Repr

/-- A request as the core sees it: id, method, path and body
(`IHttpRequest`: `GetRequestId`, `GetMethod`, `GetPath`, `GetBody`). -/
structure HttpRequest where
  requestId : String
  method : HttpMethod
  path : String
  body : String
  deriving DecidableEq, Repr

/-- A response as built by `HttpRequestProcessor`: the originating
request id plus the body produced by the dispatcher. -/
structure HttpResponse where
  requestId : String
  body : String
  deriving DecidableEq, Repr

/-- Pointer type `IHttpRequestPtr`: a possibly-null shared pointer to a request. -/
abbrev IHttpRequestPtr := Option HttpRequest

/-- The empty `StdString()`. -/
def emptyString : String := ""

/-- Lookup in an association list, modelling `std::unordered_map::find`
(and the presence test of `operator[]`). -/
def lookupAssoc {α : Type} : List (String × α) → String → Option α
  | [], _ => none
  | (k, v) :: rest, key => if k = key then some v else lookupAssoc rest key

/-- Replace the value bound to `key`, or append the binding if absent. -/
def updateAssoc {α : Type} : List (String × α) → String → α → List (String × α)
  | [], key, v => [(key, v)]
  | (k, w) :: rest, key, v =>
      if k = key then (key, v) :: rest else (k, w) :: updateAssoc rest key v

/-! ## Endpoint trie

`EndpointTrie.h` is included by the dispatcher but is not among the
source files, so the trie is modelled from the spec. -/

/-- Modelled from the spec: a Route Trie node (§3) — a mapping from
literal segment text to child node, an optional single variable child
(its variable name and child), and a terminal marker carrying the
registered pattern that ends at this node. -/
inductive TrieNode where
  | mk (literals : List (String × TrieNode))
       (varChild : Option (String × TrieNode))
       (terminal : Option String)

def TrieNode.literals : TrieNode → List (String × TrieNode)
  | .mk l _ _ => l

def TrieNode.varChild : TrieNode → Option (String × TrieNode)
  | .mk _ v _ => v

def TrieNode.terminal : TrieNode → Option String
  | .mk _ _ t => t

/-- The empty trie. -/
def TrieNode.empty : TrieNode := .mk [] none none

/-- Splits a character list at `/` separators. -/
def splitSlashAux : List Char → List Char → List (List Char)
  | [], acc => [acc.reverse]
  | c :: rest, acc =>
      if c = '/' then acc.reverse :: splitSlashAux rest []
      else splitSlashAux rest (c :: acc)

/-- Modelled from the spec: splitting a path into its non-empty
`/`-delimited segments (§4.1, GLOSSARY "Segment"). -/
def splitPath (s : String) : List String :=
  ((splitSlashAux s.data []).filter (fun l => l ≠ [])).map (fun l => String.mk l)

/-- If the segment carries the `:` sigil, its variable name (§6:
"a segment prefixed with `:` is a variable named by the remainder"). -/
def segVarName (seg : String) : Option String :=
  match seg.data with
  | ':' :: rest => some (String.mk rest)
  | _ => none

/-- Modelled from the spec: `Register` insertion walking the pattern
segment by segment (§4.1), creating literal or variable children as
needed and marking the final node terminal with the full pattern.  The
registration-time variable-name conflict policy is left open by the spec
(§9); here the first registration wins. -/
def insertAux : TrieNode → List String → String → TrieNode
  | n, [], pat => .mk n.literals n.varChild (some pat)
  | n, seg :: rest, pat =>
      match segVarName seg with
      | some name =>
          match n.varChild with
          | some (existingName, child) =>
              .mk n.literals (some (existingName, insertAux child rest pat)) n.terminal
          | none =>
              .mk n.literals (some (name, insertAux TrieNode.empty rest pat)) n.terminal
      | none =>
          match lookupAssoc n.literals seg with
          | some child =>
              .mk (updateAssoc n.literals seg (insertAux child rest pat)) n.varChild n.terminal
          | none =>
              .mk (n.literals ++ [(seg, insertAux TrieNode.empty rest pat)]) n.varChild n.terminal

/-- Register a pattern into the trie. -/
def registerPattern (root : TrieNode) (pattern : String) : TrieNode :=
  insertAux root (splitPath pattern) pattern

/-- The `EndpointMatchResult` produced by `Search`: found flag, matched
pattern, extracted variable bindings (the C++ field is named variables). -/
structure EndpointMatchResult where
  found : Bool
  pattern : String
  varBindings : List (String × String)
  deriving DecidableEq, Repr

/-- Modelled from the spec: the trie walk of `Search` (§4.1) — at each
level the literal child matching the current segment is attempted first;
only if no literal child matches is the variable child (if present)
taken, recording the segment under the child's variable name; matching
fails when neither child exists or the walk ends at a non-terminal
node. -/
def searchAux : TrieNode → List String → List (String × String) → EndpointMatchResult
  | n, [], vars =>
      match n.terminal with
      | some pat => ⟨true, pat, vars⟩
      | none => ⟨false, emptyString, vars⟩
  | n, seg :: rest, vars =>
      match lookupAssoc n.literals seg with
      | some child => searchAux child rest vars
      | none =>
          match n.varChild with
          | some (name, child) => searchAux child rest (vars ++ [(name, seg)])
          | none => ⟨false, emptyString, vars⟩

/-- Modelled from the spec: `Search(path)` splits the concrete path into
segments and walks the trie (§4.1). -/
def Search (root : TrieNode) (path : String) : EndpointMatchResult :=
  searchAux root (splitPath path) []

/-! ## Request dispatcher -/

/-- A registered handler: `std::function<StdString(CStdString,
Map<StdString, StdString>)>`.  A C++ handler may throw; a throw of a
`std::exception`-derived value is modelled as `Except.error`. -/
abbrev Handler := String → List (String × String) → Except String String

/-- Component `HttpRequestDispatcher`: nine per-verb mappings from pattern to
handler, plus the endpoint trie. -/
structure HttpRequestDispatcher where
  getMappings : List (String × Handler)
  postMappings : List (String × Handler)
  putMappings : List (String × Handler)
  patchMappings : List (String × Handler)
  deleteMappings : List (String × Handler)
  optionsMappings : List (String × Handler)
  headMappings : List (String × Handler)
  traceMappings : List (String × Handler)
  connectMappings : List (String × Handler)
  endpointTrie : TrieNode

/-- A dispatcher with no registered handlers and an empty trie
(`InitializeMappings` registers nothing). -/
def HttpRequestDispatcher.empty : HttpRequestDispatcher :=
  ⟨[], [], [], [], [], [], [], [], [], TrieNode.empty⟩

/-- The mapping table the `switch (request->GetMethod())` selects. -/
def mappingsFor (d : HttpRequestDispatcher) : HttpMethod → List (String × Handler)
  | .GET => d.getMappings
  | .POST => d.postMappings
  | .PUT => d.putMappings
  | .PATCH => d.patchMappings
  | .DELETE => d.deleteMappings
  | .OPTIONS => d.optionsMappings
  | .HEAD => d.headMappings
  | .TRACE => d.traceMappings
  | .CONNECT => d.connectMappings

/-- What `std::bad_function_call::what()` reports. -/
def badFunctionCallMsg : String := "bad_function_call"

/-- Models `mappings[patternUrl](payload, variables)` inside the `try` block:
`operator[]` on a missing key default-constructs an empty
`std::function`, and invoking it throws `std::bad_function_call` (a
`std::exception`). -/
def callHandler (m : List (String × Handler)) (pat : String) (body : String)
    (vars : List (String × String)) : Except String String :=
  match lookupAssoc m pat with
  | some h => h body vars
  | none => Except.error badFunctionCallMsg

/-- The fixed internal-error body the dispatcher's catch block returns. -/
def internalErrorPayload : String := "\x7b\"error\":\"Internal Server Error\"\x7d"

/-- Stated from the spec's words (§6), for comparison with what the code
returns: the not-found payload
`\x7b"error":"Not Found","message":"No handler found for <path>"\x7d`. -/
def specNotFoundPayload (path : String) : String :=
  "\x7b\"error\":\"Not Found\",\"message\":\"No handler found for " ++ path ++ "\"\x7d"

/-- Method `HttpRequestDispatcher::DispatchRequest`: search the trie; on a miss
return `StdString()`; otherwise call the handler table for the request's
method at the matched pattern inside a `try` that turns any thrown
`std::exception` into the internal-error payload. -/
def DispatchRequest (d : HttpRequestDispatcher) (request : HttpRequest) : String :=
  let url := request.path
  let payload := request.body
  let result := Search d.endpointTrie url
  if result.found = false then
    emptyString
  else
    match callHandler (mappingsFor d request.method) result.pattern payload result.varBindings with
    | Except.ok response => response
    | Except.error _ => internalErrorPayload

/-! ## Parameter codec (`ConvertToType`) -/

/-- ASCII `::tolower` as applied character-wise by `std::transform`. -/
def toLowerChar (c : Char) : Char :=
  if 'A' ≤ c ∧ c ≤ 'Z' then Char.ofNat (c.toNat + 32) else c

/-- Lower-casing of the whole string. -/
def toLowerString (s : String) : String := String.mk (s.data.map toLowerChar)

def trueLit : String := "true"
def oneLit : String := "1"
def falseLit : String := "false"
def zeroLit : String := "0"

def invalidBooleanMsg : String := "Invalid boolean value: "
def invalidCharMsg : String := "Invalid character value: "
def invalidIntMsg : String := "Invalid signed integer value: "

/-- Conversion `ConvertToType<bool>`: lower-case the input, accept `"true"`/`"1"`
as `true` and `"false"`/`"0"` as `false`, throw
`std::invalid_argument` otherwise. -/
def convertToBool (str : String) : Except String Bool :=
  let lower := toLowerString str
  if lower = trueLit ∨ lower = oneLit then Except.ok true
  else if lower = falseLit ∨ lower = zeroLit then Except.ok false
  else Except.error (invalidBooleanMsg ++ str)

/-- The whitespace characters `std::stoi` skips (C `isspace`, "C" locale). -/
def isSpaceChar (c : Char) : Bool :=
  c = ' ' ∨ c = '\t' ∨ c = '\n' ∨ c = '\x0b' ∨ c = '\x0c' ∨ c = '\r'

def isDigitChar (c : Char) : Bool := '0' ≤ c ∧ c ≤ '9'

/-- Value of a digit run, most significant first. -/
def digitsValue (l : List Char) : Nat :=
  l.foldl (fun acc c => acc * 10 + (c.toNat - 48)) 0

/-- Core of `std::stoi` up to range checking: skip leading whitespace, an
optional sign, then a non-empty digit run (trailing characters are
ignored); `none` when no digits can be consumed (`std::invalid_argument`). -/
def stoiCore (l : List Char) : Option Int :=
  let trimmed := l.dropWhile isSpaceChar
  match trimmed with
  | '+' :: rest =>
      let digits := rest.takeWhile isDigitChar
      if digits = [] then none else some (Int.ofNat (digitsValue digits))
  | '-' :: rest =>
      let digits := rest.takeWhile isDigitChar
      if digits = [] then none else some (-(Int.ofNat (digitsValue digits)))
  | rest =>
      let digits := rest.takeWhile isDigitChar
      if digits = [] then none else some (Int.ofNat (digitsValue digits))

def intMax : Int := 2147483647
def intMin : Int := -2147483648

def outOfRangeMsg : String := "stoi out of range: "
def invalidArgumentMsg : String := "stoi invalid argument: "

/-- Function `std::stoi` on a 32-bit `int`: `std::invalid_argument` when no
conversion could be performed, `std::out_of_range` when the value does
not fit in `int`. -/
def stoi (str : String) : Except String Int :=
  match stoiCore str.data with
  | none => Except.error (invalidArgumentMsg ++ str)
  | some v =>
      if v < intMin ∨ intMax < v then Except.error (outOfRangeMsg ++ str)
      else Except.ok v

/-- Conversion `ConvertToType` for a character-typed target (modelled for the
`unsigned char`/`UInt8` member of the listed target types, as a byte
value): a one-character input is `static_cast` of that character; the
empty input is `static_cast<Type>(0)`; otherwise the input is parsed
with `std::stoi` and the result cast to the character type (`mod 256`),
and a failing parse rethrows `std::invalid_argument`. -/
def convertToChar (str : String) : Except String Nat :=
  match str.data with
  | [c] => Except.ok (c.toNat % 256)
  | [] => Except.ok 0
  | _ =>
      match stoi str with
      | Except.ok n => Except.ok ((n % 256).toNat)
      | Except.error _ => Except.error (invalidCharMsg ++ str)

/-- Conversion `ConvertToType` for a signed-`int` target: `std::stoi` with its
exceptions rethrown as `std::invalid_argument`. -/
def convertToInt (str : String) : Except String Int :=
  match stoi str with
  | Except.ok n => Except.ok n
  | Except.error _ => Except.error (invalidIntMsg ++ str)

/-! ## Request queue (`HttpRequestQueue`) -/

/-- The queue state: the `std::queue<IHttpRequestPtr>` front-first. -/
abbrev RequestQueue := List IHttpRequestPtr

/-- Method `HttpRequestQueue::EnqueueRequest`: a null request is ignored,
otherwise push at the tail. -/
def EnqueueRequest (q : RequestQueue) (request : IHttpRequestPtr) : RequestQueue :=
  match request with
  | none => q
  | some _ => q ++ [request]

/-- Method `HttpRequestQueue::DequeueRequest`: `nullptr` on an empty queue,
otherwise take the front element off. -/
def DequeueRequest (q : RequestQueue) : IHttpRequestPtr × RequestQueue :=
  match q with
  | [] => (none, [])
  | r :: rest => (r, rest)

/-- Predicate `HttpRequestQueue::IsEmpty`. -/
def queueIsEmpty (q : RequestQueue) : Bool := q = []

/-! ## Request processor (`HttpRequestProcessor`) -/

/-- Modelled from the spec: `IHttpResponse::GetResponse(requestId,
responseBody)` — the Response collaborator of §6 constructing a
Response value `\x7bid, body\x7d` from the request id and the body. -/
def GetResponse (requestId : String) (responseBody : String) : Option HttpResponse :=
  some ⟨requestId, responseBody⟩

/-- The two queues `HttpRequestProcessor` works on.  The response queue
is modelled from the spec (§3: FIFO, insertion at tail) since
`IHttpResponseQueue`'s implementation is not among the source files. -/
structure ProcessorState where
  requestQueue : RequestQueue
  responseQueue : List HttpResponse

/-- Method `HttpRequestProcessor::ProcessRequest`: `false` on an empty queue or
a null dequeued request; otherwise dispatch the dequeued request, refuse
an empty request id, build the response and enqueue it, returning
`true`. -/
def ProcessRequest (d : HttpRequestDispatcher) (s : ProcessorState) : Bool × ProcessorState :=
  if queueIsEmpty s.requestQueue then
    (false, s)
  else
    let dq := DequeueRequest s.requestQueue
    match dq.1 with
    | none => (false, { s with requestQueue := dq.2 })
    | some request =>
        let responseBody := DispatchRequest d request
        let requestId := request.requestId
        if requestId = emptyString then (false, { s with requestQueue := dq.2 })
        else
          match GetResponse requestId responseBody with
          | none => (false, { s with requestQueue := dq.2 })
          | some response =>
              (true, ⟨dq.2, s.responseQueue ++ [response]⟩)

/-- The state after one `ProcessRequest` step. -/
def processStep (d : HttpRequestDispatcher) (s : ProcessorState) : ProcessorState :=
  (ProcessRequest d s).2

/-! ## Queue histories (for the no-null invariant) -/

/-- One client operation on the request queue. -/
inductive QueueOp where
  | enq (request : IHttpRequestPtr)
  | deq

/-- Run a sequence of queue operations from a starting queue. -/
def runOps : List QueueOp → RequestQueue → RequestQueue
  | [], q => q
  | QueueOp.enq r :: rest, q => runOps rest (EnqueueRequest q r)
  | QueueOp.deq :: rest, q => runOps rest (DequeueRequest q).2

/-! ## `NayanMath` (`NayanMath2.h`) -/

/-- Modelled from the spec: `NayanMath::add` lives in the external
`NayanMath.h`, not among the source files; it is integer addition.
Values are kept small enough that `int` overflow plays no role. -/
def NayanMath.add (a b : Int) : Int := a + b

/-- Function `NayanMath::sub` as written in `NayanMath2.h`: `add(a, b) + a - b`.
The body also contains the stray identifier `dsljkadjksl`, which is by
itself a compile error; the model keeps the `return` expression. -/
def NayanMath.sub (a b : Int) : Int := NayanMath.add a b + a - b

/-! ## Concrete fixtures used by witnesses and counterexamples -/

def activeLit : String := "active"
def idLit : String := "id"
def statusBody : String := "status ok"

/-- A handler that converts the bound `id` variable to a signed integer
with `ConvertToType<int>` and renders it; the conversion throws on a
non-numeric binding. -/
def idHandler : Handler := fun _ vars =>
  match lookupAssoc vars idLit with
  | some v => (convertToInt v).map (fun n => toString n)
  | none => Except.ok emptyString

/-- A dispatcher with only `GET /status` registered. -/
def dStatus : HttpRequestDispatcher :=
  { HttpRequestDispatcher.empty with
      getMappings := [("/status", fun _ _ => Except.ok statusBody)],
      endpointTrie := registerPattern TrieNode.empty "/status" }

/-- A dispatcher with only `GET /users/:id` registered, handled by
`idHandler`. -/
def dUsers : HttpRequestDispatcher :=
  { HttpRequestDispatcher.empty with
      getMappings := [("/users/:id", idHandler)],
      endpointTrie := registerPattern TrieNode.empty "/users/:id" }

/-- The trie with both `/users/active` and `/users/:id` registered. -/
def usersTrie : TrieNode :=
  registerPattern (registerPattern TrieNode.empty "/users/active") "/users/:id"

/-- A node carrying both a literal child for `active` and a variable
child named `id`. -/
def litAndVarNode : TrieNode :=
  TrieNode.mk [(activeLit, TrieNode.empty)] (some (idLit, TrieNode.empty)) none

def reqFoo : HttpRequest := ⟨"1", HttpMethod.GET, "/foo", emptyString⟩
def reqDelStatus : HttpRequest := ⟨"2", HttpMethod.DELETE, "/status", emptyString⟩
def reqDelUnmatched : HttpRequest := ⟨"3", HttpMethod.DELETE, "/unmatched", emptyString⟩
def reqUsersAbc : HttpRequest := ⟨"4", HttpMethod.GET, "/users/abc", emptyString⟩
def reqA : HttpRequest := ⟨"5", HttpMethod.GET, "/a", emptyString⟩
def reqB : HttpRequest := ⟨"6", HttpMethod.GET, "/b", emptyString⟩
def reqC : HttpRequest := ⟨"7", HttpMethod.GET, "/c", emptyString⟩

/-! ## Helper lemmas -/

/-- Running queue operations preserves "no null element in the queue". -/
theorem runOps_no_none (ops : List QueueOp) (q : RequestQueue)
    (hq : ∀ x ∈ q, x ≠ none) : ∀ x ∈ runOps ops q, x ≠ none := by
  induction ops generalizing q with
  | nil => simpa [runOps] using hq
  | cons op rest ih =>
      cases op with
      | enq r =>
          cases r with
          | none => exact ih q hq
          | some request =>
              refine ih _ ?_
              intro x hx
              rcases List.mem_append.mp hx with h | h
              · exact hq x h
              · simp only [List.mem_singleton] at h
                subst h
                simp
      | deq =>
          cases q with
          | nil => exact ih [] (by simp)
          | cons r restq =>
              refine ih restq ?_
              intro x hx
              exact hq x (List.mem_cons_of_mem r hx)

/-! ## Claim theorems -/

/-- C10: `NayanMath::sub` is documented to return `a - b`; the code
(ignoring its stray non-compiling identifier) computes
`add(a, b) + a - b = 2 * a`, so at `a = 1, b = 2` it returns `2` while
the documentation and the claim demand `-1`. -/
theorem nayanmath_sub_contradicts_doc :
    NayanMath.sub 1 2 = 2 ∧ NayanMath.sub 1 2 ≠ 1 - 2 := by
  constructor
  · rfl
  · decide

/-- C8: popping an empty queue yields the no-item result without
faulting, and `ProcessRequest` on an empty request queue reports no work
done and leaves both queues unchanged. -/
theorem empty_queue_operations_no_work (d : HttpRequestDispatcher)
    (resps : List HttpResponse) :
    DequeueRequest [] = (none, []) ∧
    ProcessRequest d ⟨[], resps⟩ = (false, ⟨[], resps⟩) :=
  ⟨rfl, rfl⟩

/-- C1 (counterexample): at the unmatched path `/foo` on the
freshly-constructed dispatcher, `DispatchRequest` returns the empty
`StdString()`, not the not-found payload the claim demands. -/
theorem dispatch_miss_counterexample :
    DispatchRequest HttpRequestDispatcher.empty reqFoo = emptyString ∧
    emptyString ≠ specNotFoundPayload reqFoo.path :=
  ⟨rfl, by decide⟩

/-- C1 (amended): for every request whose path the trie does not match,
`DispatchRequest` returns the empty string as a normal non-exceptional
result. -/
theorem dispatch_miss_returns_empty (d : HttpRequestDispatcher)
    (request : HttpRequest)
    (h : (Search d.endpointTrie request.path).found = false) :
    DispatchRequest d request = emptyString := by
  simp [DispatchRequest, h]

/-- Witness for the amended C1 theorem at the concrete request
`GET /foo` on the empty dispatcher. -/
theorem dispatch_miss_returns_empty_witness :
    DispatchRequest HttpRequestDispatcher.empty reqFoo = emptyString :=
  dispatch_miss_returns_empty HttpRequestDispatcher.empty reqFoo rfl

/-- C2 (counterexample): with only `GET /status` registered, dispatching
`DELETE /status` returns the internal-error payload — not the not-found
payload, and not the (empty) body returned for the unmatched path
`DELETE /unmatched`. -/
theorem dispatch_unregistered_method_counterexample :
    DispatchRequest dStatus reqDelStatus = internalErrorPayload ∧
    internalErrorPayload ≠ specNotFoundPayload reqDelStatus.path ∧
    DispatchRequest dStatus reqDelUnmatched = emptyString ∧
    internalErrorPayload ≠ emptyString :=
  ⟨rfl, by decide, rfl, by decide⟩

/-- C2 (amended): when the path matches a registered pattern but the
per-method table holds no handler for that pattern, the `operator[]`
lookup produces an empty `std::function` whose invocation throws
`std::bad_function_call`, so `DispatchRequest` returns the
internal-error payload (which differs from the empty string returned for
an unmatched path). -/
theorem dispatch_unregistered_method_internal_error
    (d : HttpRequestDispatcher) (request : HttpRequest) (pat : String)
    (vars : List (String × String))
    (h1 : Search d.endpointTrie request.path = ⟨true, pat, vars⟩)
    (h2 : lookupAssoc (mappingsFor d request.method) pat = none) :
    DispatchRequest d request = internalErrorPayload := by
  simp [DispatchRequest, h1, callHandler, h2]

/-- Witness for the amended C2 theorem at `DELETE /status` on the
dispatcher that registers only `GET /status`. -/
theorem dispatch_unregistered_method_internal_error_witness :
    DispatchRequest dStatus reqDelStatus = internalErrorPayload :=
  dispatch_unregistered_method_internal_error dStatus reqDelStatus
    "/status" [] rfl rfl

/-- C3: when the matched pattern has a registered handler and the
handler (for instance through a `ConvertToType` failure on a non-numeric
variable bound to an integer target) throws a `std::exception`, the
dispatcher's catch boundary returns exactly the internal-error payload;
`DispatchRequest` is a total function into `String`, so the fault never
propagates to its caller. -/
theorem dispatch_handler_fault_contained
    (d : HttpRequestDispatcher) (request : HttpRequest) (pat : String)
    (vars : List (String × String)) (h : Handler) (e : String)
    (h1 : Search d.endpointTrie request.path = ⟨true, pat, vars⟩)
    (h2 : lookupAssoc (mappingsFor d request.method) pat = some h)
    (h3 : h request.body vars = Except.error e) :
    DispatchRequest d request = internalErrorPayload := by
  simp [DispatchRequest, h1, callHandler, h2, h3]

/-- Witness for C3: `GET /users/abc` against `GET /users/:id` whose
handler converts `id` with `ConvertToType<int>`; the conversion of
`"abc"` throws and the dispatcher answers the internal-error payload. -/
theorem dispatch_handler_fault_contained_witness :
    DispatchRequest dUsers reqUsersAbc = internalErrorPayload :=
  dispatch_handler_fault_contained dUsers reqUsersAbc
    "/users/:id" [(idLit, "abc")] idHandler (invalidIntMsg ++ "abc")
    rfl rfl rfl

/-- C4: whenever a trie node has a literal child for the current segment,
`Search` descends that literal child — the variable child is never
consulted and no binding is recorded for that segment; in particular,
with `/users/active` and `/users/:id` both registered, searching
`/users/active` returns the literal pattern with no `id` binding. -/
theorem search_prefers_literal_child :
    (∀ (n : TrieNode) (seg : String) (rest : List String)
       (vars : List (String × String)) (child : TrieNode),
       lookupAssoc n.literals seg = some child →
       searchAux n (seg :: rest) vars = searchAux child rest vars) ∧
    Search usersTrie "/users/active" = ⟨true, "/users/active", []⟩ ∧
    (Search usersTrie "/users/active").varBindings = [] := by
  refine ⟨?_, by decide, by decide⟩
  intro n seg rest vars child hlit
  simp [searchAux, hlit]

/-- Witness for C4 at a node holding both a literal child for `active`
and a variable child named `id`: the literal child is taken. -/
theorem search_prefers_literal_child_witness :
    searchAux litAndVarNode [activeLit] [] = searchAux TrieNode.empty [] [] :=
  search_prefers_literal_child.1 litAndVarNode activeLit [] [] TrieNode.empty rfl

/-- C6: boolean conversion succeeds with `true` exactly on inputs equal
to `"true"` or `"1"` under case-insensitive comparison, succeeds with
`false` exactly on `"false"` or `"0"` under case-insensitive comparison,
and throws `std::invalid_argument` on every other input. -/
theorem convert_bool_spec (s : String) :
    (convertToBool s = Except.ok true ↔
      (toLowerString s = toLowerString trueLit ∨
       toLowerString s = toLowerString oneLit)) ∧
    (convertToBool s = Except.ok false ↔
      (toLowerString s = toLowerString falseLit ∨
       toLowerString s = toLowerString zeroLit)) ∧
    (convertToBool s = Except.error (invalidBooleanMsg ++ s) ↔
      ¬((toLowerString s = toLowerString trueLit ∨
         toLowerString s = toLowerString oneLit) ∨
        (toLowerString s = toLowerString falseLit ∨
         toLowerString s = toLowerString zeroLit))) := by
  have ht : toLowerString trueLit = trueLit := by decide
  have h1 : toLowerString oneLit = oneLit := by decide
  have hf : toLowerString falseLit = falseLit := by decide
  have h0 : toLowerString zeroLit = zeroLit := by decide
  rw [ht, h1, hf, h0]
  by_cases c1 : toLowerString s = trueLit ∨ toLowerString s = oneLit
  · have hne : ¬(toLowerString s = falseLit ∨ toLowerString s = zeroLit) := by
      rcases c1 with h | h <;> rw [h] <;> decide
    simp [convertToBool, c1, hne]
  · by_cases c2 : toLowerString s = falseLit ∨ toLowerString s = zeroLit
    · simp [convertToBool, c1, c2]
    · simp [convertToBool, c1, c2]

/-- Witness for C6: `"TrUe"` converts to `true`, `"0"` converts to
`false`, and `"abc"` raises the conversion error. -/
theorem convert_bool_spec_witness :
    convertToBool "TrUe" = Except.ok true ∧
    convertToBool "0" = Except.ok false ∧
    convertToBool "abc" = Except.error (invalidBooleanMsg ++ "abc") :=
  ⟨(convert_bool_spec "TrUe").1.mpr (Or.inl (by decide)),
   (convert_bool_spec "0").2.1.mpr (Or.inr (by decide)),
   (convert_bool_spec "abc").2.2.mpr (by decide)⟩

/-- C7: conversion to a character-typed target takes a one-character
input literally, maps the empty input to zero, parses a longer input as
an integer with the result cast to the character type, and rethrows a
failing parse as `std::invalid_argument`. -/
theorem convert_char_spec (s : String) :
    (∀ c : Char, s.data = [c] → convertToChar s = Except.ok (c.toNat % 256)) ∧
    (s.data = [] → convertToChar s = Except.ok 0) ∧
    (∀ (c1 c2 : Char) (cs : List Char), s.data = c1 :: c2 :: cs →
      (∀ n : Int, stoi s = Except.ok n →
        convertToChar s = Except.ok ((n % 256).toNat)) ∧
      (∀ e : String, stoi s = Except.error e →
        convertToChar s = Except.error (invalidCharMsg ++ s))) := by
  refine ⟨?_, ?_, ?_⟩
  · intro c hc
    simp [convertToChar, hc]
  · intro hc
    simp [convertToChar, hc]
  · intro c1 c2 cs hc
    constructor
    · intro n hn
      simp [convertToChar, hc, hn]
    · intro e he
      simp [convertToChar, hc, he]

/-- Witness for C7: `"a"` yields the character code 97, `""` yields 0,
`"65"` parses as the integer 65 cast to the character type, and `"xy"`
raises the conversion error. -/
theorem convert_char_spec_witness :
    convertToChar "a" = Except.ok 97 ∧
    convertToChar "" = Except.ok 0 ∧
    convertToChar "65" = Except.ok 65 ∧
    convertToChar "xy" = Except.error (invalidCharMsg ++ "xy") :=
  ⟨(convert_char_spec "a").1 'a' rfl,
   (convert_char_spec "").2.1 rfl,
   ((convert_char_spec "65").2.2 '6' '5' [] rfl).1 65 rfl,
   ((convert_char_spec "xy").2.2 'x' 'y' [] rfl).2 (invalidArgumentMsg ++ "xy") rfl⟩

/-- C9: over every sequence of enqueue and dequeue operations starting
from the empty queue, the queue never contains a null request (a null
`EnqueueRequest` argument is silently ignored), and `DequeueRequest`
returns `nullptr` exactly when the queue is empty. -/
theorem queue_never_null (ops : List QueueOp) :
    (∀ x ∈ runOps ops [], x ≠ none) ∧
    ((DequeueRequest (runOps ops [])).1 = none ↔ runOps ops [] = []) := by
  have hinv : ∀ x ∈ runOps ops [], x ≠ none :=
    runOps_no_none ops [] (by simp)
  refine ⟨hinv, ?_⟩
  cases hq : runOps ops [] with
  | nil => simp [DequeueRequest]
  | cons r rest =>
      simp only [DequeueRequest]
      constructor
      · intro hr
        exact absurd hr (hinv r (by rw [hq]; exact List.mem_cons_self r rest))
      · intro hfalse
        exact absurd hfalse (List.cons_ne_nil r rest)

/-- Witness for C9 on the operation sequence "enqueue null, enqueue a
request, dequeue": the null enqueue is ignored, the queue drains to
empty, and dequeue on the result signals empty. -/
theorem queue_never_null_witness :
    (some reqA ∈ runOps [QueueOp.enq none, QueueOp.enq (some reqA), QueueOp.deq] [] →
      some reqA ≠ none) ∧
    ((DequeueRequest (runOps [QueueOp.enq none, QueueOp.enq (some reqA), QueueOp.deq] [])).1 = none ↔
      runOps [QueueOp.enq none, QueueOp.enq (some reqA), QueueOp.deq] [] = []) :=
  ⟨(queue_never_null [QueueOp.enq none, QueueOp.enq (some reqA), QueueOp.deq]).1 (some reqA),
   (queue_never_null [QueueOp.enq none, QueueOp.enq (some reqA), QueueOp.deq]).2⟩

/-- C5: requests enqueued in the order R1, R2, R3 dequeue in exactly
that order, and draining the request queue through three
`ProcessRequest` steps (all reporting work done) empties it and leaves
the corresponding responses in the response queue in the same order. -/
theorem queue_fifo_pipeline_order (d : HttpRequestDispatcher)
    (r1 r2 r3 : HttpRequest)
    (h1 : r1.requestId ≠ emptyString)
    (h2 : r2.requestId ≠ emptyString)
    (h3 : r3.requestId ≠ emptyString) :
    let q := EnqueueRequest (EnqueueRequest (EnqueueRequest [] (some r1)) (some r2)) (some r3)
    (DequeueRequest q).1 = some r1 ∧
    (DequeueRequest (DequeueRequest q).2).1 = some r2 ∧
    (DequeueRequest (DequeueRequest (DequeueRequest q).2).2).1 = some r3 ∧
    (DequeueRequest (DequeueRequest (DequeueRequest q).2).2).2 = [] ∧
    (ProcessRequest d ⟨q, []⟩).1 = true ∧
    (ProcessRequest d (processStep d ⟨q, []⟩)).1 = true ∧
    (ProcessRequest d (processStep d (processStep d ⟨q, []⟩))).1 = true ∧
    (processStep d (processStep d (processStep d ⟨q, []⟩))).requestQueue = [] ∧
    (processStep d (processStep d (processStep d ⟨q, []⟩))).responseQueue =
      [⟨r1.requestId, DispatchRequest d r1⟩,
       ⟨r2.requestId, DispatchRequest d r2⟩,
       ⟨r3.requestId, DispatchRequest d r3⟩] := by
  simp [EnqueueRequest, DequeueRequest, ProcessRequest, processStep,
        queueIsEmpty, GetResponse, h1, h2, h3]

/-- Witness for C5 on three concrete requests driven through the empty
dispatcher. -/
theorem queue_fifo_pipeline_order_witness :
    let q := EnqueueRequest (EnqueueRequest (EnqueueRequest [] (some reqA)) (some reqB)) (some reqC)
    (DequeueRequest q).1 = some reqA ∧
    (DequeueRequest (DequeueRequest q).2).1 = some reqB ∧
    (DequeueRequest (DequeueRequest (DequeueRequest q).2).2).1 = some reqC ∧
    (DequeueRequest (DequeueRequest (DequeueRequest q).2).2).2 = [] ∧
    (ProcessRequest HttpRequestDispatcher.empty ⟨q, []⟩).1 = true ∧
    (ProcessRequest HttpRequestDispatcher.empty (processStep HttpRequestDispatcher.empty ⟨q, []⟩)).1 = true ∧
    (ProcessRequest HttpRequestDispatcher.empty (processStep HttpRequestDispatcher.empty (processStep HttpRequestDispatcher.empty ⟨q, []⟩))).1 = true ∧
    (processStep HttpRequestDispatcher.empty (processStep HttpRequestDispatcher.empty (processStep HttpRequestDispatcher.empty ⟨q, []⟩))).requestQueue = [] ∧
    (processStep HttpRequestDispatcher.empty (processStep HttpRequestDispatcher.empty (processStep HttpRequestDispatcher.empty ⟨q, []⟩))).responseQueue =
      [⟨reqA.requestId, DispatchRequest HttpRequestDispatcher.empty reqA⟩,
       ⟨reqB.requestId, DispatchRequest HttpRequestDispatcher.empty reqB⟩,
       ⟨reqC.requestId, DispatchRequest HttpRequestDispatcher.empty reqC⟩] :=
  queue_fifo_pipeline_order HttpRequestDispatcher.empty reqA reqB reqC
    (by decide) (by decide) (by decide)
